import Mathlib

/-!
Shallow embedding of the PixelSheet collaborative spreadsheet client
(`GoogleSheetsGrid.tsx` and `RealTimeCollaboration.tsx`).

Coordinates are modelled as `Int` (JavaScript numbers used as integers);
user ids as `Nat`; the cell store as a function from coordinates to an
optional cell record, mirroring the `"row-col"`-keyed `cellMap`.
-/

namespace PixelSheet

/-- Grid bounds from `GoogleSheetsGrid.tsx`: `const ROWS = 1000`. -/
def ROWS : Int := 1000

/-- Grid bounds from `GoogleSheetsGrid.tsx`: `const COLS = 26`. -/
def COLS : Int := 26

/-! ### JavaScript `Number(string)` model

`saveCellMutation` infers the data type with
`value.startsWith('=') ? 'formula' : isNaN(Number(value)) ? 'text' : 'number'`.
`jsNumeric s` models `¬ isNaN(Number(s))` for a string `s`, following the
ECMAScript StringToNumber grammar: trimmed whitespace, empty string is 0,
optional sign with `Infinity` or a decimal literal, or an unsigned
hex/octal/binary literal. -/

/-- ASCII decimal digit. -/
def isDigitChar (c : Char) : Bool := ('0' ≤ c) && (c ≤ '9')

/-- Hexadecimal digit. -/
def isHexDigitChar (c : Char) : Bool :=
  isDigitChar c || (('a' ≤ c) && (c ≤ 'f')) || (('A' ≤ c) && (c ≤ 'F'))

/-- Octal digit. -/
def isOctalDigitChar (c : Char) : Bool := ('0' ≤ c) && (c ≤ '7')

/-- Binary digit. -/
def isBinaryDigitChar (c : Char) : Bool := c = '0' || c = '1'

/-- JavaScript string whitespace trimmed by `Number()`. -/
def isJsSpace (c : Char) : Bool :=
  c = ' ' || c = '\t' || c = '\n' || c = '\r' ||
  c = Char.ofNat 11 || c = Char.ofNat 12 || c = Char.ofNat 0xA0 || c = Char.ofNat 0xFEFF

/-- Optional exponent part (`e`/`E`, optional sign, one or more digits) ending
the literal. -/
def expTail (cs : List Char) : Bool :=
  match cs with
  | [] => true
  | c :: rest =>
    (c = 'e' || c = 'E') &&
    (let rest' := match rest with
      | s :: r => if s = '+' || s = '-' then r else rest
      | [] => rest
     !rest'.isEmpty && rest'.all isDigitChar)

/-- Unsigned decimal literal: `digits [. digits] [exp]` or `. digits [exp]`. -/
def decimalBody (cs : List Char) : Bool :=
  let intPart := cs.takeWhile isDigitChar
  let rest := cs.dropWhile isDigitChar
  if intPart.isEmpty then
    match rest with
    | '.' :: r =>
      let frac := r.takeWhile isDigitChar
      !frac.isEmpty && expTail (r.dropWhile isDigitChar)
    | _ => false
  else
    match rest with
    | '.' :: r => expTail (r.dropWhile isDigitChar)
    | _ => expTail rest

/-- Optionally signed `Infinity` or decimal literal. -/
def signedBody (cs : List Char) : Bool :=
  let cs' := match cs with
    | c :: r => if c = '+' || c = '-' then r else cs
    | [] => cs
  cs' = "Infinity".toList || decimalBody cs'

/-- Predicate `jsNumeric s` holds iff JavaScript `Number(s)` is not `NaN`. -/
def jsNumeric (s : String) : Bool :=
  let cs := ((s.toList.dropWhile isJsSpace).reverse.dropWhile isJsSpace).reverse
  match cs with
  | [] => true
  | '0' :: x :: rest =>
    if x = 'x' || x = 'X' then !rest.isEmpty && rest.all isHexDigitChar
    else if x = 'o' || x = 'O' then !rest.isEmpty && rest.all isOctalDigitChar
    else if x = 'b' || x = 'B' then !rest.isEmpty && rest.all isBinaryDigitChar
    else signedBody cs
  | _ => signedBody cs

/-! ### Cell store -/

/-- The persisted fields of a cell that the grid component writes and reads
(`value`, `formula`, `dataType` from the `Cell` interface; `id` and
`formatting` are never produced by the operations under study and are
omitted). -/
structure CellRec where
  value : Option String
  formula : Option String
  dataType : Option String
deriving DecidableEq, Repr

/-- The `cellMap` keyed by `(row, column)`; `none` is an absent entry. -/
def Grid : Type := Int → Int → Option CellRec

/-- The grid with no cell rows at all. -/
def emptyGrid : Grid := fun _ _ => none

/-- The test `value.startsWith('=')` from the source (the prefix is the single
character `=`, so this is the first-character test). -/
def startsWithEq (v : String) : Bool :=
  match v.toList with
  | c :: _ => c = '='
  | [] => false

/-- Data-type inference from `saveCellMutation`:
`value.startsWith('=') ? 'formula' : isNaN(Number(value)) ? 'text' : 'number'`. -/
def inferDataType (v : String) : String :=
  if startsWithEq v then "formula"
  else if !jsNumeric v then "text"
  else "number"

/-- Effect of `saveCellMutation.mutate({row, column, value})` on the cell
store: the cell at `(row, column)` becomes the record sent in the PUT body,
`{value, dataType: inferred, formula: value.startsWith('=') ? value : null}`. -/
def setCell (g : Grid) (r c : Int) (v : String) : Grid :=
  fun r' c' =>
    if r' = r ∧ c' = c then
      some { value := some v
             formula := if startsWithEq v then some v else none
             dataType := some (inferDataType v) }
    else g r' c'

/-- The `getCellValue` helper from `GoogleSheetsGrid.tsx`:
`cellMap.get(row-col)?.value || ''` (an absent cell, a null value and the
empty string all display as the empty string). -/
def getCellValue (g : Grid) (r c : Int) : String :=
  match (g r c).bind CellRec.value with
  | some v => v
  | none => ""

theorem getCellValue_setCell_same (g : Grid) (r c : Int) (v : String) :
    getCellValue (setCell g r c v) r c = v := by
  simp [getCellValue, setCell]

theorem getCellValue_setCell_ne (g : Grid) (r c r' c' : Int) (v : String)
    (h : ¬(r' = r ∧ c' = c)) :
    getCellValue (setCell g r c v) r' c' = getCellValue g r' c' := by
  simp [getCellValue, setCell, h]

/-! ### Selection and clipboard -/

/-- The `Selection` interface: a rectangular range. -/
structure Selection where
  startRow : Int
  startCol : Int
  endRow : Int
  endCol : Int
deriving DecidableEq, Repr

/-- An entry of the `clipboard` state array as built by `copySelection`:
`{row, column, value: cell?.value || '', formula: cell?.formula,
dataType: cell?.dataType}`. -/
structure ClipCell where
  row : Int
  column : Int
  value : String
  formula : Option String
  dataType : Option String
deriving DecidableEq, Repr

/-- Helper `intRangeAux a n` is the list `[a, a+1, ..., a+n-1]`. -/
def intRangeAux (a : Int) : Nat → List Int
  | 0 => []
  | n + 1 => a :: intRangeAux (a + 1) n

/-- The values taken by a JavaScript loop
`for (let i = a; i <= b; i++)`. -/
def intRange (a b : Int) : List Int := intRangeAux a (b + 1 - a).toNat

/-- The clipboard entry `copySelection` captures for one coordinate. -/
def captureCell (g : Grid) (r c : Int) : ClipCell :=
  { row := r, column := c, value := getCellValue g r c
    formula := (g r c).bind CellRec.formula
    dataType := (g r c).bind CellRec.dataType }

/-- The row-major cell array captured by `copySelection` from a range
selection (`for row in startRow..endRow, for col in startCol..endCol`). -/
def copyRange (g : Grid) (sel : Selection) : List ClipCell :=
  (intRange sel.startRow sel.endRow).flatMap fun r =>
    (intRange sel.startCol sel.endCol).map fun c => captureCell g r c

/-- One iteration of the `clipboard.forEach` body in `pasteSelection`:
compute the target from the anchor and the offset against `clipboard[0]`,
write it when `targetRow <= ROWS && targetCol <= COLS`, otherwise skip.
(The source checks only the upper bounds.) -/
def pasteStep (c0 : ClipCell) (anchorRow anchorCol : Int) (g : Grid) (cell : ClipCell) : Grid :=
  if anchorRow + (cell.row - c0.row) ≤ ROWS ∧ anchorCol + (cell.column - c0.column) ≤ COLS then
    setCell g (anchorRow + (cell.row - c0.row)) (anchorCol + (cell.column - c0.column)) cell.value
  else g

/-- Effect of `pasteSelection` on the cell store, for a given anchor and
clipboard (the source returns early when the clipboard is empty). -/
def pasteGrid (g : Grid) (anchorRow anchorCol : Int) (clip : List ClipCell) : Grid :=
  match clip with
  | [] => g
  | c0 :: _ => clip.foldl (pasteStep c0 anchorRow anchorCol) g

/-- Effect of `clearSelection`'s range branch on the cell store: one
`saveCellMutation.mutate({row, column, value: ''})` per coordinate. -/
def clearRange (g : Grid) (sel : Selection) : Grid :=
  (intRange sel.startRow sel.endRow).foldl
    (fun acc r =>
      (intRange sel.startCol sel.endCol).foldl (fun acc2 c => setCell acc2 r c "") acc)
    g

/-! ### Component state and the keyboard handler -/

/-- The component state of `GoogleSheetsGrid` that the operations under
study read and write: the cell store, `selectedCell`, `selection`,
`isEditing`, `editingValue` and `clipboard`. -/
structure GridState where
  grid : Grid
  selectedCell : Option (Int × Int)
  selection : Option Selection
  isEditing : Bool
  editingValue : String
  clipboard : List ClipCell

/-- Function `copySelection`: captures the range (or the single selected cell when no
range exists) into the clipboard; returns unchanged when there is neither. -/
def copySelectionS (s : GridState) : GridState :=
  match s.selection, s.selectedCell with
  | none, none => s
  | some sel, _ => { s with clipboard := copyRange s.grid sel }
  | none, some (r, c) => { s with clipboard := [captureCell s.grid r c] }

/-- Function `pasteSelection`: returns unchanged without a selected cell or with an
empty clipboard; otherwise pastes anchored at the selected cell. -/
def pasteSelectionS (s : GridState) : GridState :=
  match s.selectedCell with
  | none => s
  | some (r, c) =>
    if s.clipboard = [] then s
    else { s with grid := pasteGrid s.grid r c s.clipboard }

/-- Function `clearSelection`: clears the range if one exists, else the selected
cell, else returns unchanged. -/
def clearSelectionS (s : GridState) : GridState :=
  match s.selection, s.selectedCell with
  | none, none => s
  | some sel, _ => { s with grid := clearRange s.grid sel }
  | none, some (r, c) => { s with grid := setCell s.grid r c "" }

/-- Function `cutSelection`: `copySelection()` then `clearSelection()`. -/
def cutSelectionS (s : GridState) : GridState := clearSelectionS (copySelectionS s)

/-- Function `startEditing`: seeds the edit buffer with the cell's current value and
enters editing mode. -/
def startEditing (s : GridState) : GridState :=
  match s.selectedCell with
  | none => s
  | some (r, c) => { s with editingValue := getCellValue s.grid r c, isEditing := true }

/-- Function `finishEditing`: flushes the edit buffer into the cell store via
`saveCellMutation`, leaves editing mode and resets the buffer. -/
def finishEditing (s : GridState) : GridState :=
  match s.selectedCell with
  | none => s
  | some (r, c) =>
    { s with grid := setCell s.grid r c s.editingValue
             isEditing := false
             editingValue := "" }

/-- Function `cancelEditing`: leaves editing mode discarding the buffer. -/
def cancelEditing (s : GridState) : GridState :=
  { s with isEditing := false, editingValue := "" }

/-- The keys the `handleKeyDown` listener in `GoogleSheetsGrid.tsx`
distinguishes (modifier state folded into the constructor). -/
inductive Key where
  | arrowUp
  | arrowDown
  | arrowLeft
  | arrowRight
  | tab (shift : Bool)
  | enter (shift : Bool)
  | f2
  | delete
  | escape
  | ctrlC
  | ctrlV
  | ctrlX
  | ctrlA
deriving DecidableEq, Repr

/-- The `handleKeyDown` listener: returns early without a selected cell;
dispatches on mode (`isEditing`), then on the key, mirroring the two
`switch` statements of the source. -/
def handleKeyDown (s : GridState) (k : Key) : GridState :=
  match s.selectedCell with
  | none => s
  | some (r, c) =>
    if s.isEditing then
      match k with
      | .enter _ =>
        let s' := finishEditing s
        if r < ROWS then { s' with selectedCell := some (r + 1, c) } else s'
      | .escape => cancelEditing s
      | .tab shift =>
        let s' := finishEditing s
        if shift then
          if c > 1 then { s' with selectedCell := some (r, c - 1) } else s'
        else
          if c < COLS then { s' with selectedCell := some (r, c + 1) } else s'
      | _ => s
    else
      match k with
      | .arrowUp => if r > 1 then { s with selectedCell := some (r - 1, c) } else s
      | .arrowDown => if r < ROWS then { s with selectedCell := some (r + 1, c) } else s
      | .arrowLeft => if c > 1 then { s with selectedCell := some (r, c - 1) } else s
      | .arrowRight => if c < COLS then { s with selectedCell := some (r, c + 1) } else s
      | .tab shift =>
        if shift then
          if c > 1 then { s with selectedCell := some (r, c - 1) } else s
        else
          if c < COLS then { s with selectedCell := some (r, c + 1) } else s
      | .enter shift =>
        if shift then
          if r > 1 then { s with selectedCell := some (r - 1, c) } else s
        else
          if r < ROWS then { s with selectedCell := some (r + 1, c) } else s
      | .f2 => startEditing s
      | .delete =>
        match s.selection with
        | some _ => clearSelectionS s
        | none => { s with grid := setCell s.grid r c "" }
      | .escape => s
      | .ctrlC => copySelectionS s
      | .ctrlV => pasteSelectionS s
      | .ctrlX => cutSelectionS s
      | .ctrlA => { s with selection := some { startRow := 1, startCol := 1, endRow := ROWS, endCol := COLS } }

/-! ### Collaboration channel (`RealTimeCollaboration.tsx`) -/

/-- The `User` interface. -/
structure User where
  id : Nat
  username : String
  email : String
  avatar : Option String
deriving DecidableEq, Repr

/-- A `CollaboratorCursor` entry of the Presence map. -/
structure CollaboratorCursor where
  userId : Nat
  user : User
  row : Int
  column : Int
  isEditing : Bool
  color : String
deriving DecidableEq, Repr

/-- A `cell:update` message (`CellUpdate` interface). -/
structure CellUpdate where
  userId : Nat
  sheetId : Int
  row : Int
  column : Int
  value : String
  timestamp : Int
deriving DecidableEq, Repr

/-- A `cursor:move` message payload. -/
structure CursorMoveEvent where
  userId : Nat
  row : Int
  column : Int
  isEditing : Bool
deriving DecidableEq, Repr

/-- The `collaborators` state: a map from user id to cursor entry. -/
def Presence : Type := Nat → Option CollaboratorCursor

/-- The `CURSOR_COLORS` palette from the source. -/
def CURSOR_COLORS : List String :=
  ["#FF6B6B", "#4ECDC4", "#45B7D1", "#FFA07A", "#98D8C8",
   "#F7DC6F", "#BB8FCE", "#85C1E9", "#F8C471", "#82E0AA"]

/-- Function `getUserColor`: `CURSOR_COLORS[userId % CURSOR_COLORS.length]`. -/
def getUserColor (userId : Nat) : String :=
  match CURSOR_COLORS.get? (userId % CURSOR_COLORS.length) with
  | some color => color
  | none => ""

/-- Handler `handleCollaboratorJoin`: insert/overwrite the Presence entry for the
joining user at row 1, column 1, not editing, with the deterministic color. -/
def handleCollaboratorJoin (p : Presence) (u : User) : Presence :=
  fun uid =>
    if uid = u.id then
      some { userId := u.id, user := u, row := 1, column := 1
             isEditing := false, color := getUserColor u.id }
    else p uid

/-- Handler `handleCollaboratorLeave`: delete the entry. -/
def handleCollaboratorLeave (p : Presence) (userId : Nat) : Presence :=
  fun uid => if uid = userId then none else p uid

/-- Handler `handleCursorMove`: drop own events; update the matching entry's
position/editing flag; leave the map unchanged when no entry exists. -/
def handleCursorMove (localId : Nat) (p : Presence) (e : CursorMoveEvent) : Presence :=
  if e.userId = localId then p
  else
    match p e.userId with
    | none => p
    | some collab =>
      fun uid =>
        if uid = e.userId then
          some { collab with row := e.row, column := e.column, isEditing := e.isEditing }
        else p uid

/-- Modelled from the spec: the `onCellUpdate` consumer is wired outside the
files under study; §4.4 specifies that an accepted remote `cell-update` is
"applied to Grid State Store via `setCell`-equivalent *without* re-queuing a
new outbound event". -/
def applyRemoteCellUpdate (g : Grid) (e : CellUpdate) : Grid :=
  setCell g e.row e.column e.value

/-- Handler `handleCellUpdate`: `if (data.userId === user.id) return;` then
`onCellUpdate?.(data)` (the latter per `applyRemoteCellUpdate`). -/
def handleCellUpdate (localId : Nat) (g : Grid) (e : CellUpdate) : Grid :=
  if e.userId = localId then g
  else applyRemoteCellUpdate g e

/-! ### Helper lemmas -/

theorem mem_intRangeAux_lower (x : Int) (n : Nat) :
    ∀ a : Int, x ∈ intRangeAux a n → a ≤ x := by
  induction n with
  | zero => intro a h; simp [intRangeAux] at h
  | succ n ih =>
    intro a h
    simp only [intRangeAux, List.mem_cons] at h
    rcases h with h | h
    · omega
    · have := ih (a + 1) h; omega

theorem mem_intRange_lower (a b x : Int) (h : x ∈ intRange a b) : a ≤ x :=
  mem_intRangeAux_lower x _ a h

theorem intRange_cons (a b : Int) (h : a ≤ b) :
    intRange a b = a :: intRange (a + 1) b := by
  unfold intRange
  have hn : (b + 1 - a).toNat = (b + 1 - (a + 1)).toNat + 1 := by omega
  rw [hn]
  rfl

theorem copyRange_mem (g : Grid) (sel : Selection) (cell : ClipCell)
    (h : cell ∈ copyRange g sel) :
    ∃ r c, cell = captureCell g r c ∧ sel.startRow ≤ r ∧ sel.startCol ≤ c := by
  unfold copyRange at h
  simp only [List.mem_flatMap, List.mem_map] at h
  obtain ⟨r, hr, c, hc, rfl⟩ := h
  exact ⟨r, c, rfl, mem_intRange_lower _ _ _ hr, mem_intRange_lower _ _ _ hc⟩

theorem copyRange_cons (g : Grid) (sel : Selection)
    (h1 : sel.startRow ≤ sel.endRow) (h2 : sel.startCol ≤ sel.endCol) :
    ∃ rest, copyRange g sel = captureCell g sel.startRow sel.startCol :: rest := by
  unfold copyRange
  rw [intRange_cons _ _ h1, intRange_cons _ _ h2]
  simp only [List.flatMap_cons, List.map_cons, List.cons_append]
  exact ⟨_, rfl⟩

theorem intRange_nil (a b : Int) (h : b < a) : intRange a b = [] := by
  unfold intRange
  have hn : (b + 1 - a).toNat = 0 := by omega
  rw [hn]
  rfl

/-- Pasting a clipboard anchored at the first tuple's own coordinates
rewrites each target with a value already agreeing with the reference store
`h`, so the observable value of every cell is preserved. -/
theorem pasteAtSource_pointwise (c0 : ClipCell) (clip : List ClipCell) (g h : Grid)
    (hg : ∀ r c, getCellValue g r c = getCellValue h r c)
    (hv : ∀ cell ∈ clip, cell.value = getCellValue h cell.row cell.column) (r c : Int) :
    getCellValue (clip.foldl (pasteStep c0 c0.row c0.column) g) r c = getCellValue h r c := by
  induction clip generalizing g with
  | nil => exact hg r c
  | cons cell rest ih =>
    rw [List.foldl_cons]
    apply ih
    · intro r' c'
      unfold pasteStep
      have e1 : c0.row + (cell.row - c0.row) = cell.row := by ring
      have e2 : c0.column + (cell.column - c0.column) = cell.column := by ring
      rw [e1, e2]
      by_cases hb : cell.row ≤ ROWS ∧ cell.column ≤ COLS
      · rw [if_pos hb]
        by_cases hpt : r' = cell.row ∧ c' = cell.column
        · obtain ⟨hr', hc'⟩ := hpt
          subst hr'
          subst hc'
          rw [getCellValue_setCell_same]
          exact hv cell (List.mem_cons_self _ _)
        · rw [getCellValue_setCell_ne _ _ _ _ _ _ hpt]
          exact hg r' c'
      · rw [if_neg hb]
        exact hg r' c'
    · intro cell' hm
      exact hv cell' (List.mem_cons_of_mem _ hm)

/-- Every clipboard tuple captured by `copySelection` carries the value the
source grid showed at the tuple's own coordinates. -/
theorem copySelectionS_clipboard_values (s : GridState)
    (h : s.selection ≠ none ∨ s.selectedCell ≠ none) :
    ∀ cell ∈ (copySelectionS s).clipboard,
      cell.value = getCellValue s.grid cell.row cell.column := by
  intro cell hm
  obtain ⟨g, sc, selopt, ie, ev, cb⟩ := s
  cases selopt with
  | some sel =>
    simp only [copySelectionS] at hm
    obtain ⟨r', c', rfl, _, _⟩ := copyRange_mem g sel cell hm
    rfl
  | none =>
    cases sc with
    | none => simp at h
    | some rc =>
      obtain ⟨r, c⟩ := rc
      simp only [copySelectionS, List.mem_singleton] at hm
      subst hm
      rfl

/-- Follows the spec's wording, not the source: a paste target is written
exactly when it lies inside the full grid bounds `[1, ROWS] × [1, COLS]`,
and skipped otherwise. Comparison point for the bounds-check refinement. -/
def pasteSpecStep (c0 : ClipCell) (anchorRow anchorCol : Int) (g : Grid) (cell : ClipCell) :
    Grid :=
  if 1 ≤ anchorRow + (cell.row - c0.row) ∧ anchorRow + (cell.row - c0.row) ≤ ROWS
      ∧ 1 ≤ anchorCol + (cell.column - c0.column)
      ∧ anchorCol + (cell.column - c0.column) ≤ COLS then
    setCell g (anchorRow + (cell.row - c0.row)) (anchorCol + (cell.column - c0.column))
      cell.value
  else g

/-- Follows the spec's wording, not the source: paste writes every in-bounds
target and silently skips every out-of-bounds one; empty clipboard is a
no-op. -/
def pasteSpecGrid (g : Grid) (anchorRow anchorCol : Int) (clip : List ClipCell) : Grid :=
  match clip with
  | [] => g
  | c0 :: _ => clip.foldl (pasteSpecStep c0 anchorRow anchorCol) g

example : jsNumeric "42" = true := by decide
example : jsNumeric "hello" = false := by decide
example : jsNumeric "" = true := by decide
example : jsNumeric " 3.5e2 " = true := by decide
example : jsNumeric "0x1F" = true := by decide
example : jsNumeric "12a" = false := by decide
example : inferDataType "42" = "number" := by decide
example : inferDataType "=A1+1" = "formula" := by decide
example : inferDataType "hello" = "text" := by decide
example : inferDataType "" = "number" := by decide


/-! ## Claims -/

/-- Claim C1: an inbound `cell-update` whose `userId` equals the local
user's id is discarded without touching the grid; in particular a local
edit followed by its echoed copy leaves the grid equal to the state after
the single local write. -/
theorem C1_self_echo_discarded (me : Nat) (g : Grid) (e : CellUpdate)
    (he : e.userId = me) (r c : Int) (v : String) (t sh : Int) :
    handleCellUpdate me g e = g
    ∧ handleCellUpdate me (setCell g r c v)
        { userId := me, sheetId := sh, row := r, column := c, value := v, timestamp := t }
      = setCell g r c v := by
  constructor <;> simp [handleCellUpdate, he]

theorem C1_self_echo_discarded_witness :
    handleCellUpdate 1 emptyGrid
        { userId := 1, sheetId := 7, row := 2, column := 3, value := "x", timestamp := 5 }
      = emptyGrid
    ∧ handleCellUpdate 1 (setCell emptyGrid 2 3 "x")
        { userId := 1, sheetId := 7, row := 2, column := 3, value := "x", timestamp := 5 }
      = setCell emptyGrid 2 3 "x" :=
  C1_self_echo_discarded 1 emptyGrid
    { userId := 1, sheetId := 7, row := 2, column := 3, value := "x", timestamp := 5 }
    rfl 2 3 "x" 5 7

/-- Claim C2: two remote `cell-update`s for the same cell are both applied
in delivery order with no timestamp comparison (the `timestamp` fields are
unconstrained below), so the final value is the second-delivered payload. -/
theorem C2_delivery_order_wins (me : Nat) (g : Grid) (e1 e2 : CellUpdate)
    (h1 : e1.userId ≠ me) (h2 : e2.userId ≠ me)
    (hr : e1.row = e2.row) (hc : e1.column = e2.column) :
    getCellValue (handleCellUpdate me g e1) e1.row e1.column = e1.value
    ∧ getCellValue (handleCellUpdate me (handleCellUpdate me g e1) e2) e2.row e2.column
      = e2.value := by
  constructor <;>
    simp [handleCellUpdate, h1, h2, applyRemoteCellUpdate, getCellValue_setCell_same]

theorem C2_delivery_order_wins_witness :
    getCellValue
        (handleCellUpdate 1 emptyGrid
          { userId := 2, sheetId := 7, row := 4, column := 5, value := "first",
            timestamp := 100 })
        4 5
      = "first"
    ∧ getCellValue
        (handleCellUpdate 1
          (handleCellUpdate 1 emptyGrid
            { userId := 2, sheetId := 7, row := 4, column := 5, value := "first",
              timestamp := 100 })
          { userId := 2, sheetId := 7, row := 4, column := 5, value := "second",
            timestamp := 50 })
        4 5
      = "second" :=
  C2_delivery_order_wins 1 emptyGrid
    { userId := 2, sheetId := 7, row := 4, column := 5, value := "first", timestamp := 100 }
    { userId := 2, sheetId := 7, row := 4, column := 5, value := "second", timestamp := 50 }
    (by decide) (by decide) rfl rfl

/-- Claim C4: for in-bounds coordinates, `setCell` followed by `getCell`
returns the written value, the stored `dataType` is the inferred one
(`=`-prefix is `formula` with the `formula` field set, numeric parse is
`number`, otherwise `text`), and the three spec examples infer as stated. -/
theorem C4_setCell_getCell_roundtrip (g : Grid) (r c : Int) (v : String)
    (hr : 1 ≤ r ∧ r ≤ ROWS) (hc : 1 ≤ c ∧ c ≤ COLS) :
    getCellValue (setCell g r c v) r c = v
    ∧ (setCell g r c v r c).bind CellRec.dataType = some (inferDataType v)
    ∧ (startsWithEq v = true → (setCell g r c v r c).bind CellRec.formula = some v)
    ∧ (startsWithEq v = false → (setCell g r c v r c).bind CellRec.formula = none)
    ∧ inferDataType "42" = "number"
    ∧ inferDataType "=A1+1" = "formula"
    ∧ inferDataType "hello" = "text" := by
  refine ⟨getCellValue_setCell_same g r c v, ?_, ?_, ?_, by decide, by decide, by decide⟩
  · simp [setCell]
  · intro h; simp [setCell, h]
  · intro h; simp [setCell, h]

theorem C4_setCell_getCell_roundtrip_witness :
    getCellValue (setCell emptyGrid 1 1 "42") 1 1 = "42"
    ∧ (setCell emptyGrid 1 1 "42" 1 1).bind CellRec.dataType = some (inferDataType "42")
    ∧ (startsWithEq "42" = true →
        (setCell emptyGrid 1 1 "42" 1 1).bind CellRec.formula = some "42")
    ∧ (startsWithEq "42" = false →
        (setCell emptyGrid 1 1 "42" 1 1).bind CellRec.formula = none)
    ∧ inferDataType "42" = "number"
    ∧ inferDataType "=A1+1" = "formula"
    ∧ inferDataType "hello" = "text" :=
  C4_setCell_getCell_roundtrip emptyGrid 1 1 "42" (by decide) (by decide)

/-- Claim C8: in navigating mode an arrow key (or Tab) that would cross a
grid edge leaves the whole component state unchanged: Up at row 1, Left at
column 1, Down at row `ROWS`, Right at column `COLS`, and Tab/Shift+Tab at
the column bounds. -/
theorem C8_navigation_clamped_at_edges (s : GridState) (r c : Int)
    (hN : s.isEditing = false) (hsel : s.selectedCell = some (r, c)) :
    (r = 1 → handleKeyDown s .arrowUp = s)
    ∧ (c = 1 → handleKeyDown s .arrowLeft = s)
    ∧ (r = ROWS → handleKeyDown s .arrowDown = s)
    ∧ (c = COLS → handleKeyDown s .arrowRight = s)
    ∧ (c = 1 → handleKeyDown s (.tab true) = s)
    ∧ (c = COLS → handleKeyDown s (.tab false) = s) := by
  unfold handleKeyDown
  rw [hsel]
  refine ⟨?_, ?_, ?_, ?_, ?_, ?_⟩ <;> intro h <;> subst h <;> simp [hN, ROWS, COLS]

/-- A concrete navigating state at the top-left corner cell. -/
def sCorner : GridState :=
  { grid := emptyGrid, selectedCell := some (1, 1), selection := none
    isEditing := false, editingValue := "", clipboard := [] }

/-- A concrete navigating state at the bottom-right corner cell. -/
def sCornerBR : GridState :=
  { grid := emptyGrid, selectedCell := some (1000, 26), selection := none
    isEditing := false, editingValue := "", clipboard := [] }

theorem C8_navigation_clamped_at_edges_witness :
    (handleKeyDown sCorner .arrowUp = sCorner
      ∧ handleKeyDown sCorner .arrowLeft = sCorner
      ∧ handleKeyDown sCorner (.tab true) = sCorner)
    ∧ (handleKeyDown sCornerBR .arrowDown = sCornerBR
      ∧ handleKeyDown sCornerBR .arrowRight = sCornerBR
      ∧ handleKeyDown sCornerBR (.tab false) = sCornerBR) :=
  ⟨⟨(C8_navigation_clamped_at_edges sCorner 1 1 rfl rfl).1 rfl,
    (C8_navigation_clamped_at_edges sCorner 1 1 rfl rfl).2.1 rfl,
    (C8_navigation_clamped_at_edges sCorner 1 1 rfl rfl).2.2.2.2.1 rfl⟩,
   ⟨(C8_navigation_clamped_at_edges sCornerBR 1000 26 rfl rfl).2.2.1 rfl,
    (C8_navigation_clamped_at_edges sCornerBR 1000 26 rfl rfl).2.2.2.1 rfl,
    (C8_navigation_clamped_at_edges sCornerBR 1000 26 rfl rfl).2.2.2.2.2 rfl⟩⟩

/-- Claim C9: `Number('') === 0`, so `setCell` with the empty string infers
`dataType` `number`; the Delete/Backspace clear, range clear and cut paths
all write the empty string, producing that record. -/
theorem C9_empty_value_infers_number (g : Grid) (r c : Int) (s : GridState) (r0 c0 : Int)
    (hN : s.isEditing = false) (hsel : s.selectedCell = some (r0, c0))
    (hnr : s.selection = none) :
    inferDataType "" = "number"
    ∧ setCell g r c "" r c
      = some { value := some "", formula := none, dataType := some "number" }
    ∧ (handleKeyDown s .delete).grid = setCell s.grid r0 c0 ""
    ∧ (handleKeyDown s .ctrlX).grid = setCell s.grid r0 c0 ""
    ∧ clearRange g { startRow := r, startCol := c, endRow := r, endCol := c }
      = setCell g r c "" := by
  refine ⟨by decide, ?_, ?_, ?_, ?_⟩
  · simp [setCell]
    exact ⟨by decide, by decide⟩
  · unfold handleKeyDown
    rw [hsel]
    simp [hN, hnr]
  · unfold handleKeyDown
    rw [hsel]
    simp [hN, cutSelectionS, copySelectionS, clearSelectionS, hnr, hsel]
  · unfold clearRange
    rw [intRange_cons r r le_rfl, intRange_cons c c le_rfl,
        intRange_nil (r + 1) r (by omega), intRange_nil (c + 1) c (by omega)]
    rfl

theorem C9_empty_value_infers_number_witness :
    inferDataType "" = "number"
    ∧ setCell emptyGrid 3 4 "" 3 4
      = some { value := some "", formula := none, dataType := some "number" }
    ∧ (handleKeyDown sCorner .delete).grid = setCell sCorner.grid 1 1 ""
    ∧ (handleKeyDown sCorner .ctrlX).grid = setCell sCorner.grid 1 1 ""
    ∧ clearRange emptyGrid { startRow := 3, startCol := 4, endRow := 3, endCol := 4 }
      = setCell emptyGrid 3 4 "" :=
  C9_empty_value_infers_number emptyGrid 3 4 sCorner 1 1 rfl rfl rfl

/-- Claim C10: a `cursor-move` for a remote user with no Presence entry
leaves the Presence map unchanged (it never creates an entry); a
`collaborator-join` always initializes the entry at row 1, column 1 with
`isEditing` false (and the deterministic color). -/
theorem C10_cursor_move_never_creates (me : Nat) (p : Presence) (e : CursorMoveEvent)
    (u : User) (h1 : e.userId ≠ me) (h2 : p e.userId = none) :
    handleCursorMove me p e = p
    ∧ handleCollaboratorJoin p u u.id
      = some { userId := u.id, user := u, row := 1, column := 1
               isEditing := false, color := getUserColor u.id } := by
  constructor
  · unfold handleCursorMove
    rw [if_neg h1, h2]
  · simp [handleCollaboratorJoin]

/-- The remote peer used in concrete collaboration scenarios. -/
def remoteUser : User :=
  { id := 2, username := "remote", email := "remote@example.com", avatar := none }

theorem C10_cursor_move_never_creates_witness :
    handleCursorMove 1 (fun _ => none) { userId := 2, row := 3, column := 4, isEditing := true }
      = (fun _ => none)
    ∧ handleCollaboratorJoin (fun _ => none) remoteUser remoteUser.id
      = some { userId := remoteUser.id, user := remoteUser, row := 1, column := 1
               isEditing := false, color := getUserColor remoteUser.id } :=
  C10_cursor_move_never_creates 1 (fun _ => none)
    { userId := 2, row := 3, column := 4, isEditing := true } remoteUser (by decide) rfl

/-- Claim C7: every keyboard transition out of editing mode flushes the
edit buffer into the cell store via `setCell` on the active cell, except
Escape, which discards the buffer and leaves the store untouched; any key
whose result leaves editing mode either flushed or was Escape. -/
theorem C7_exit_flushes_unless_escape (s : GridState) (r c : Int) (shift : Bool)
    (hE : s.isEditing = true) (hsel : s.selectedCell = some (r, c)) :
    ((handleKeyDown s (.enter shift)).grid = setCell s.grid r c s.editingValue
      ∧ (handleKeyDown s (.enter shift)).isEditing = false)
    ∧ ((handleKeyDown s (.tab shift)).grid = setCell s.grid r c s.editingValue
      ∧ (handleKeyDown s (.tab shift)).isEditing = false)
    ∧ ((handleKeyDown s .escape).grid = s.grid
      ∧ (handleKeyDown s .escape).isEditing = false)
    ∧ (∀ k : Key, (handleKeyDown s k).isEditing = false →
        (handleKeyDown s k).grid = setCell s.grid r c s.editingValue ∨ k = .escape) := by
  have henter : ∀ sh : Bool,
      (handleKeyDown s (.enter sh)).grid = setCell s.grid r c s.editingValue
      ∧ (handleKeyDown s (.enter sh)).isEditing = false := by
    intro sh
    unfold handleKeyDown
    rw [hsel]
    simp only [hE, if_true]
    unfold finishEditing
    rw [hsel]
    constructor <;> split <;> rfl
  have htab : ∀ sh : Bool,
      (handleKeyDown s (.tab sh)).grid = setCell s.grid r c s.editingValue
      ∧ (handleKeyDown s (.tab sh)).isEditing = false := by
    intro sh
    unfold handleKeyDown
    rw [hsel]
    simp only [hE, if_true]
    unfold finishEditing
    rw [hsel]
    cases sh <;> constructor <;> simp only [Bool.false_eq_true, if_false, if_true] <;>
      split <;> rfl
  have hesc : (handleKeyDown s .escape).grid = s.grid
      ∧ (handleKeyDown s .escape).isEditing = false := by
    unfold handleKeyDown
    rw [hsel]
    simp [hE, cancelEditing]
  refine ⟨henter shift, htab shift, hesc, ?_⟩
  intro k hk
  cases k with
  | enter sh => exact Or.inl (henter sh).1
  | tab sh => exact Or.inl (htab sh).1
  | escape => exact Or.inr rfl
  | arrowUp =>
    unfold handleKeyDown at hk
    rw [hsel] at hk
    simp [hE] at hk
  | arrowDown =>
    unfold handleKeyDown at hk
    rw [hsel] at hk
    simp [hE] at hk
  | arrowLeft =>
    unfold handleKeyDown at hk
    rw [hsel] at hk
    simp [hE] at hk
  | arrowRight =>
    unfold handleKeyDown at hk
    rw [hsel] at hk
    simp [hE] at hk
  | f2 =>
    unfold handleKeyDown at hk
    rw [hsel] at hk
    simp [hE] at hk
  | delete =>
    unfold handleKeyDown at hk
    rw [hsel] at hk
    simp [hE] at hk
  | ctrlC =>
    unfold handleKeyDown at hk
    rw [hsel] at hk
    simp [hE] at hk
  | ctrlV =>
    unfold handleKeyDown at hk
    rw [hsel] at hk
    simp [hE] at hk
  | ctrlX =>
    unfold handleKeyDown at hk
    rw [hsel] at hk
    simp [hE] at hk
  | ctrlA =>
    unfold handleKeyDown at hk
    rw [hsel] at hk
    simp [hE] at hk

/-- A concrete editing state: the user is editing cell (2, 3) with buffer
`"99"` over an empty store. -/
def sEditing : GridState :=
  { grid := emptyGrid, selectedCell := some (2, 3), selection := none
    isEditing := true, editingValue := "99", clipboard := [] }

theorem C7_exit_flushes_unless_escape_witness :
    ((handleKeyDown sEditing (.enter false)).grid = setCell sEditing.grid 2 3 "99"
      ∧ (handleKeyDown sEditing (.enter false)).isEditing = false)
    ∧ ((handleKeyDown sEditing (.tab false)).grid = setCell sEditing.grid 2 3 "99"
      ∧ (handleKeyDown sEditing (.tab false)).isEditing = false)
    ∧ ((handleKeyDown sEditing .escape).grid = sEditing.grid
      ∧ (handleKeyDown sEditing .escape).isEditing = false)
    ∧ (∀ k : Key, (handleKeyDown sEditing k).isEditing = false →
        (handleKeyDown sEditing k).grid = setCell sEditing.grid 2 3 "99" ∨ k = .escape) :=
  C7_exit_flushes_unless_escape sEditing 2 3 false rfl rfl

/-- Claim C5: for a clipboard captured by `copySelection` from a rectangular
source range and an in-bounds anchor, `pasteSelection` writes exactly the
tuples whose target lies inside the grid bounds and silently skips the
rest (the source's upper-bound-only check coincides with the full bounds
check because offsets are non-negative and the anchor is at least (1, 1)),
and pasting an empty clipboard changes nothing. -/
theorem C5_paste_writes_in_bounds_targets (g g0 : Grid) (sel : Selection) (ar ac : Int)
    (h1 : 1 ≤ sel.startRow) (h2 : 1 ≤ sel.startCol)
    (h3 : sel.startRow ≤ sel.endRow) (h4 : sel.startCol ≤ sel.endCol)
    (ha1 : 1 ≤ ar) (ha2 : 1 ≤ ac) :
    pasteGrid g ar ac (copyRange g0 sel) = pasteSpecGrid g ar ac (copyRange g0 sel)
    ∧ pasteGrid g ar ac [] = g := by
  refine ⟨?_, rfl⟩
  obtain ⟨rest, hcons⟩ := copyRange_cons g0 sel h3 h4
  rw [hcons]
  show (captureCell g0 sel.startRow sel.startCol :: rest).foldl
      (pasteStep (captureCell g0 sel.startRow sel.startCol) ar ac) g
    = (captureCell g0 sel.startRow sel.startCol :: rest).foldl
      (pasteSpecStep (captureCell g0 sel.startRow sel.startCol) ar ac) g
  apply List.foldl_ext
  intro acc cell hmem
  have hm : cell ∈ copyRange g0 sel := by rw [hcons]; exact hmem
  obtain ⟨r', c', rfl, hr', hc'⟩ := copyRange_mem g0 sel cell hm
  unfold pasteStep pasteSpecStep
  show (if ar + (r' - sel.startRow) ≤ ROWS ∧ ac + (c' - sel.startCol) ≤ COLS then _ else _)
    = (if 1 ≤ ar + (r' - sel.startRow) ∧ ar + (r' - sel.startRow) ≤ ROWS
          ∧ 1 ≤ ac + (c' - sel.startCol) ∧ ac + (c' - sel.startCol) ≤ COLS
       then _ else _)
  have hiff : (ar + (r' - sel.startRow) ≤ ROWS ∧ ac + (c' - sel.startCol) ≤ COLS)
      ↔ (1 ≤ ar + (r' - sel.startRow) ∧ ar + (r' - sel.startRow) ≤ ROWS
          ∧ 1 ≤ ac + (c' - sel.startCol) ∧ ac + (c' - sel.startCol) ≤ COLS) := by
    omega
  rw [if_congr hiff rfl rfl]

theorem C5_paste_writes_in_bounds_targets_witness :
    pasteGrid emptyGrid 999 25
        (copyRange (setCell emptyGrid 1 1 "a")
          { startRow := 1, startCol := 1, endRow := 3, endCol := 3 })
      = pasteSpecGrid emptyGrid 999 25
        (copyRange (setCell emptyGrid 1 1 "a")
          { startRow := 1, startCol := 1, endRow := 3, endCol := 3 })
    ∧ pasteGrid emptyGrid 999 25 [] = emptyGrid :=
  C5_paste_writes_in_bounds_targets emptyGrid (setCell emptyGrid 1 1 "a")
    { startRow := 1, startCol := 1, endRow := 3, endCol := 3 } 999 25
    (by decide) (by decide) (by decide) (by decide) (by decide) (by decide)

/-- A Presence map in which the remote peer has already joined. -/
def presence0 : Presence := handleCollaboratorJoin (fun _ => none) remoteUser

/-- Claim C3 is false on the code: neither handler bounds-checks inbound
coordinates. A `cursor-move` from a known remote collaborator with
row 5000 (outside [1, 1000]) changes the Presence map. -/
theorem C3_counterexample :
    handleCursorMove 1 presence0 { userId := 2, row := 5000, column := 1, isEditing := false } 2
      ≠ presence0 2 := by
  decide

/-- Claim C3 amended: inbound coordinates are never bounds-checked. A
`cursor-move` from a known remote collaborator is applied to the Presence
entry even when its coordinates are out of bounds, and a remote
`cell-update` with out-of-bounds coordinates is still forwarded to the
grid-store application; only self-originated events (and cursor moves of
unknown users) are dropped. -/
theorem C3_amended_no_bounds_filtering (me : Nat) (p : Presence) (e : CursorMoveEvent)
    (collab : CollaboratorCursor) (g : Grid) (eu : CellUpdate)
    (h1 : e.userId ≠ me) (h2 : p e.userId = some collab)
    (h3 : ¬(1 ≤ e.row ∧ e.row ≤ ROWS ∧ 1 ≤ e.column ∧ e.column ≤ COLS))
    (h4 : eu.userId ≠ me)
    (h5 : ¬(1 ≤ eu.row ∧ eu.row ≤ ROWS ∧ 1 ≤ eu.column ∧ eu.column ≤ COLS)) :
    handleCursorMove me p e e.userId
      = some { collab with row := e.row, column := e.column, isEditing := e.isEditing }
    ∧ handleCellUpdate me g eu = setCell g eu.row eu.column eu.value := by
  constructor
  · unfold handleCursorMove
    rw [if_neg h1, h2]
    simp
  · unfold handleCellUpdate applyRemoteCellUpdate
    rw [if_neg h4]

theorem C3_amended_no_bounds_filtering_witness :
    handleCursorMove 1 presence0 { userId := 2, row := 5000, column := 1, isEditing := false } 2
      = some { userId := 2, user := remoteUser, row := 5000, column := 1
               isEditing := false, color := getUserColor 2 }
    ∧ handleCellUpdate 1 emptyGrid
        { userId := 2, sheetId := 7, row := 2000, column := 0, value := "x", timestamp := 9 }
      = setCell emptyGrid 2000 0 "x" :=
  C3_amended_no_bounds_filtering 1 presence0
    { userId := 2, row := 5000, column := 1, isEditing := false }
    { userId := 2, user := remoteUser, row := 1, column := 1
      isEditing := false, color := getUserColor 2 }
    emptyGrid
    { userId := 2, sheetId := 7, row := 2000, column := 0, value := "x", timestamp := 9 }
    (by decide) rfl (by decide) (by decide) (by decide)

/-- A concrete component state over an empty store: active cell (1, 1),
no range selection, empty clipboard. -/
def s6 : GridState :=
  { grid := emptyGrid, selectedCell := some (1, 1), selection := none
    isEditing := false, editingValue := "", clipboard := [] }

/-- Claim C6 is false on the code as a statement about the cell store:
copying the (absent) cell (1, 1) of an empty store and pasting at the same
anchor runs `setCell` with the empty string, creating an explicit cell
record where there was none, so the store after the paste differs from the
store before. -/
theorem C6_counterexample :
    (pasteSelectionS (copySelectionS s6)).grid ≠ s6.grid := by
  intro h
  have h1 : (pasteSelectionS (copySelectionS s6)).grid 1 1
      = some { value := some "", formula := none, dataType := some "number" } := rfl
  rw [h] at h1
  simp [s6, emptyGrid] at h1

/-- Claim C6 amended: copy followed by paste anchored at the copied
region's top-left tuple preserves the observable value of every cell
(`getCellValue` agrees everywhere before and after); the underlying store
may still change, gaining explicit empty-valued records at previously
absent coordinates of the selection (as the counterexample shows). -/
theorem C6_amended_observable_idempotence (s : GridState) (c0 : ClipCell)
    (rest : List ClipCell)
    (hsome : s.selection ≠ none ∨ s.selectedCell ≠ none)
    (hclip : (copySelectionS s).clipboard = c0 :: rest) (r c : Int) :
    getCellValue (pasteGrid s.grid c0.row c0.column ((copySelectionS s).clipboard)) r c
      = getCellValue s.grid r c := by
  rw [hclip]
  have hv : ∀ cell ∈ c0 :: rest, cell.value = getCellValue s.grid cell.row cell.column := by
    rw [← hclip]
    exact copySelectionS_clipboard_values s hsome
  exact pasteAtSource_pointwise c0 (c0 :: rest) s.grid s.grid (fun _ _ => rfl) hv r c

theorem C6_amended_observable_idempotence_witness :
    ((s6.selection ≠ none ∨ s6.selectedCell ≠ none)
      ∧ (copySelectionS s6).clipboard = (⟨1, 1, "", none, none⟩ : ClipCell) :: [])
    ∧ getCellValue (pasteGrid s6.grid 1 1 ((copySelectionS s6).clipboard)) 1 1
      = getCellValue s6.grid 1 1 :=
  ⟨⟨Or.inr (by simp [s6]), rfl⟩,
   C6_amended_observable_idempotence s6 ⟨1, 1, "", none, none⟩ []
     (Or.inr (by simp [s6])) rfl 1 1⟩

end PixelSheet
